import Mathlib

/-!
Shallow embedding of the cuidame booking backend (Express + Google Calendar).

The repository holds several variants of the same server:
* `V1`  — first chunk of src/server.js (CommonJS; `overlap` in minutes,
  inline `CAREGIVERS` table with exact key lookup, weekend → all-taken grid);
* `V2`  — second chunk of src/server.js (accent/case-insensitive
  `caregiversIndex`, availability via a Set of truncated-hour strings,
  weekend → empty slot list);
* `P1`  — src/unnamed/part_001 (exact lookup, Set of hour strings);
* `P2`  — src/unnamed/part_002 (no weekend/lead checks, conflict via
  `find`, `mergeContiguousSlots` before insertion);
* `P3a` — first chunk of src/unnamed/part_003 (normalized lookup,
  `parseDateFlexible`, mirrored writes into `ORG_CALENDARS`);
* `P4a` — first chunk of src/unnamed/part_004 (numeric overlap, price with
  `toFixed(2)` rounding).

Times are modelled as wall-clock minutes of the civil day in the business
timezone (Europe/Madrid); dates as day counts since 1970-01-01 (a Thursday),
with `dayOfWeek` in the JS `getDay` convention (0 = Sunday .. 6 = Saturday).
Money is modelled in ℚ (JS numbers, with the exact values the arithmetic
denotes). External calendar reads are passed in as the fetched event list;
writes are returned as the list of events the handler would insert.
-/

namespace Cuidame

/-- A half-open time range "HH:MM-HH:MM" on one civil day, parsed to its
start and end in minutes (e.g. "09:00-10:00" ↦ ⟨540, 600⟩). -/
structure Slot where
  startMin : Nat
  endMin : Nat
deriving DecidableEq

/-- V1 `SLOT_RANGES`: five morning hours 09-14 and three afternoon hours
17-20. -/
def SLOT_RANGES : List Slot :=
  [⟨540, 600⟩, ⟨600, 660⟩, ⟨660, 720⟩, ⟨720, 780⟩, ⟨780, 840⟩,
   ⟨1020, 1080⟩, ⟨1080, 1140⟩, ⟨1140, 1200⟩]

/-- V2/P1/P2/P3a `getRanges()`: whole hours h=9..13 and h=16..19. -/
def getRanges : List Slot :=
  ((List.range 5).map fun h => ⟨(9 + h) * 60, (10 + h) * 60⟩) ++
  ((List.range 4).map fun h => ⟨(16 + h) * 60, (17 + h) * 60⟩)

/-- V1 `overlap(rangeA, rangeB)`: Math.max(A1,B1) < Math.min(A2,B2) on the
parsed minutes. -/
def overlap (a b : Slot) : Bool :=
  decide (max a.startMin b.startMin < min a.endMin b.endMin)

/-- The overlap predicate exactly as the spec words it:
start_A < end_B AND start_B < end_A. -/
def specOverlap (a b : Slot) : Prop :=
  a.startMin < b.endMin ∧ b.startMin < a.endMin

instance (a b : Slot) : Decidable (specOverlap a b) := by
  unfold specOverlap; infer_instance

/-- A fetched calendar event, reduced to what the handlers read: start/end
as wall-clock minutes of the queried day, plus the optional
`extendedProperties.private.range` stamped by this system's own inserts. -/
structure GEvent where
  startMin : Nat
  endMin : Nat
  propRange : Option Slot := none
deriving DecidableEq

/-- V1 /api/slots: an event is compared through its stored `p.range` when
present, otherwise through its own start/end hours (the fallback branch). -/
def v1EventSlot (ev : GEvent) : Slot :=
  ev.propRange.getD ⟨ev.startMin, ev.endMin⟩

/-- V1 /api/slots and /api/reserve: a range is taken iff `events.some`
overlaps it. -/
def v1Taken (events : List GEvent) (r : Slot) : Bool :=
  events.any fun ev => overlap (v1EventSlot ev) r

/-- V1 /api/slots grid: `SLOT_RANGES.map(range => ({range, taken}))`. -/
def v1Grid (events : List GEvent) : List (Slot × Bool) :=
  SLOT_RANGES.map fun r => (r, v1Taken events r)

/-- V2 /api/slots: each event contributes the string
"fmtHour(start):00-fmtHour(end):00" to the `taken` Set, i.e. its hour-
truncated bounds. -/
def v2EventKey (ev : GEvent) : Slot :=
  ⟨ev.startMin / 60 * 60, ev.endMin / 60 * 60⟩

/-- V2 /api/slots: `taken.has(r)` — set membership of the exact string,
which for the whole-hour catalog ranges is equality of truncated hours. -/
def v2Taken (events : List GEvent) (r : Slot) : Bool :=
  events.any fun ev => v2EventKey ev == r

/-- V2 /api/slots grid over `getRanges()`. -/
def v2Grid (events : List GEvent) : List (Slot × Bool) :=
  getRanges.map fun r => (r, v2Taken events r)

/-! ### Dates -/

/-- Day-of-week of a day count since 1970-01-01 (a Thursday), in the JS
`Date.getDay` convention: 0 = Sunday, 6 = Saturday. -/
def dayOfWeek (d : Nat) : Nat := (d + 4) % 7

/-- Weekend test `isWeekend`: day 0 (Sunday) or 6 (Saturday), as in every variant. -/
def isWeekend (d : Nat) : Bool :=
  dayOfWeek d == 0 || dayOfWeek d == 6

/-- First non-weekend day ≥ d. Saturday and Sunday are the only two
consecutive weekend days, so the answer is at most d+2; this is the inner
skipping of the `addWorkdays` while-loop, unrolled. -/
def skipWeekend (d : Nat) : Nat :=
  if isWeekend d then (if isWeekend (d + 1) then d + 2 else d + 1) else d

/-- Lead-time walk `addWorkdays(startDate, workdays)`: walk forward one day at a time,
counting only non-weekend days, until the counter reaches `workdays`
(identical in V1, V2, P1, P3a, P4a; the `n <= 0` early return of some
variants is the same function). Each counted step lands on the next
non-weekend day. -/
def addWorkdays (d : Nat) : Nat → Nat
  | 0 => d
  | n + 1 => addWorkdays (skipWeekend (d + 1)) n

/-- Days since 1970-01-01 of a civil date (Howard Hinnant's civil-from-days
inverse), the model of JS `new Date("YYYY-MM-DDT00:00:00")` day identity;
valid for dates from March 1970 on (Nat subtraction). -/
def daysFromCivil (y m d : Nat) : Nat :=
  let yAdj := if m ≤ 2 then y - 1 else y
  let era := yAdj / 400
  let yoe := yAdj - era * 400
  let mp := if 2 < m then m - 3 else m + 9
  let doy := (153 * mp + 2) / 5 + d - 1
  let doe := yoe * 365 + yoe / 4 - yoe / 100 + doy
  era * 146097 + doe - 719468

/-- Day count of a parsed (year, month, day) triple. -/
def dateToDay (ymd : Nat × Nat × Nat) : Nat :=
  daysFromCivil ymd.1 ymd.2.1 ymd.2.2

/-! ### String utilities -/

/-- ASCII decimal digit test. -/
def isDigitChar (c : Char) : Bool := '0' ≤ c && c ≤ '9'

/-- Numeric value of a digit character. -/
def digitVal (c : Char) : Nat := c.toNat - '0'.toNat

/-- The regex ^\d{4}-\d{2}-\d{2}$ together with the numeric split, as in
V1's date check and the first branch of `parseDateFlexible`. -/
def parseYmd (cs : List Char) : Option (Nat × Nat × Nat) :=
  match cs with
  | [y1, y2, y3, y4, s1, m1, m2, s2, d1, d2] =>
    if s1 == '-' && s2 == '-' && [y1, y2, y3, y4, m1, m2, d1, d2].all isDigitChar then
      some (1000 * digitVal y1 + 100 * digitVal y2 + 10 * digitVal y3 + digitVal y4,
            10 * digitVal m1 + digitVal m2,
            10 * digitVal d1 + digitVal d2)
    else none
  | _ => none

/-- The regex ^\d{2}\/\d{2}\/\d{4}$ (DD/MM/YYYY), second branch of
`parseDateFlexible`. -/
def parseDmy (cs : List Char) : Option (Nat × Nat × Nat) :=
  match cs with
  | [d1, d2, s1, m1, m2, s2, y1, y2, y3, y4] =>
    if s1 == '/' && s2 == '/' && [d1, d2, m1, m2, y1, y2, y3, y4].all isDigitChar then
      some (1000 * digitVal y1 + 100 * digitVal y2 + 10 * digitVal y3 + digitVal y4,
            10 * digitVal m1 + digitVal m2,
            10 * digitVal d1 + digitVal d2)
    else none
  | _ => none

/-- calendar.js / P3a `parseDateFlexible`: accepts "YYYY-MM-DD" or
"DD/MM/YYYY", otherwise an invalid date (none). -/
def parseDateFlexible (s : String) : Option (Nat × Nat × Nat) :=
  match parseYmd s.data with
  | some r => some r
  | none => parseDmy s.data

/-- Whitespace for the trim model. -/
def isSpaceChar (c : Char) : Bool :=
  c == ' ' || c == '\t' || c == '\n' || c == '\r'

/-- JS `String.prototype.trim` on the character list. -/
def trimL (cs : List Char) : List Char :=
  ((cs.dropWhile isSpaceChar).reverse.dropWhile isSpaceChar).reverse

/-- V1 required-field test for strings: `payload[k].trim() === ''`. -/
def strMissing (s : String) : Bool := trimL s.data == []

/-- JS string falsiness `!s` (empty string), used by the V2/P1/P3a
validations (no trim there). -/
def strFalsy (s : String) : Bool := s.data == []

/-- Spanish accented letters to their base letter — the effect of
`normalize('NFD').replace(/[̀-ͯ]/g, '')` on the alphabet the
caregiver names use. -/
def deaccent (c : Char) : Char :=
  match c with
  | 'á' => 'a' | 'é' => 'e' | 'í' => 'i' | 'ó' => 'o' | 'ú' => 'u'
  | 'Á' => 'A' | 'É' => 'E' | 'Í' => 'I' | 'Ó' => 'O' | 'Ú' => 'U'
  | 'ü' => 'u' | 'Ü' => 'U' | 'ñ' => 'n' | 'Ñ' => 'N'
  | c => c

/-- One character of V2/P3a `normalize`: strip the accent, then lower-case
(the source strips on the whole string and lower-cases after the trim;
per-character the composition is the same). -/
def charFold (c : Char) : Char := (deaccent c).toLower

/-- V2/P3a `normalize(s)`: NFD + strip combining marks + trim +
toLowerCase, on the character list. -/
def foldName (s : String) : List Char :=
  trimL (s.data.map charFold)

/-! ### Configuration -/

/-- V1's inline `CAREGIVERS` map: name → calendarId (exact string keys). -/
def CAREGIVERS_V1 : List (String × String) :=
  [("Raquel", "fe9a8085d8db29f888a6382935c82e20f33d476347adfe6416582401d377454d@group.calendar.google.com"),
   ("Carmen", "4562295563647999c8222fc750cf01803405063f186574ff7df5dfe2694a9c73@group.calendar.google.com"),
   ("Daniela", "84f168dd91cb85bbe4a97b2c88d4d174a3b09f53e025b0a51f401dc91cf70759@group.calendar.google.com")]

/-- Modelled from the spec: the contents of caregivers.json are not in the
repository. Per §3 (resources keyed by name, one calendar each) and the
inline tables of the other variants, it is the three caregivers Raquel,
Carmen and Daniela; the calendar ids are abbreviated placeholders. -/
def caregiversJson : List (String × String) :=
  [("Raquel", "raquel-cal"), ("Carmen", "carmen-cal"), ("Daniela", "daniela-cal")]

/-- V2/P3a `caregiversIndex`: keys pre-normalized with `normalize`. -/
def caregiversIndexV2 : List (List Char × String) :=
  caregiversJson.map fun kv => (foldName kv.1, kv.2)

/-- V2/P3a lookup `caregiversIndex[normalize(name)]`. -/
def v2Lookup (name : String) : Option String :=
  caregiversIndexV2.lookup (foldName name)

/-! ### Results and payloads -/

/-- HTTP outcome of a handler: an error response or a success value. -/
inductive Res (ε α : Type) where
  | error (e : ε)
  | ok (a : α)
deriving DecidableEq

/-- V1 error kinds (the `error` field of its 4xx responses). -/
inductive V1Err where
  | campoRequerido (campo : String)
  | cuidadoraInvalida
  | fechaInvalida
  | soloLunesViernes
  | leadMinimo
  | conflicto (slots : List Slot)
deriving DecidableEq

/-- V2/P1/P3a error kinds. -/
inductive V2Err where
  | faltanParametros
  | faltanCampos
  | cuidadoraDesconocida
  | fechaInvalida
  | fechaNoDisponible
  | antesDeLead
  | conflicto (slots : List Slot)
deriving DecidableEq

/-- P2 /api/reservar error kinds; the conflict message "Conflicto en r"
names a single range. -/
inductive P2Err where
  | faltanDatosPersonales
  | eligeServicio
  | faltanCuidadoraFechaHoras
  | cuidadoraNoEncontrada
  | conflictoEn (r : Slot)
deriving DecidableEq

/-- Price summary `{horas, subtotal, iva, total}`. -/
structure Precio where
  horas : Nat
  subtotal : ℚ
  iva : ℚ
  total : ℚ
deriving DecidableEq

/-- V1 /api/reserve price: subtotal = horasCount * RATE;
iva = subtotal * IVA; total = subtotal + iva (same formula in V2, P3a). -/
def v1Precio (RATE IVA : ℚ) (horas : List Slot) : Precio :=
  let subtotal : ℚ := (horas.length : ℚ) * RATE
  let iva := subtotal * IVA
  ⟨horas.length, subtotal, iva, subtotal + iva⟩

/-- JS `(+x.toFixed(2))`: round to 2 decimal places, half away from zero
(only ever applied to nonnegative amounts here). -/
def round2 (q : ℚ) : ℚ := (⌊q * 100 + 1 / 2⌋ : ℤ) / 100

/-- P4a /api/reservar price: RATE 18 and IVA 0.1 hardcoded; iva and total
pass through toFixed(2). -/
def p4aPrecio (n : Nat) : Precio :=
  let subtotal : ℚ := (n : ℚ) * 18
  let iva := round2 (subtotal * (1 / 10))
  let total := round2 (subtotal + iva)
  ⟨n, subtotal, iva, total⟩

/-- Reservation request body, with the fields every variant destructures. -/
structure Payload where
  nombre : String
  apellidos : String
  email : String
  telefono : String
  localidad : String
  direccion : String
  servicios : List String
  cuidadora : String
  fecha : String
  horas : List Slot
deriving DecidableEq

/-- V1 /api/reserve required-field loop: first required key that is
missing/empty (strings by trim, arrays by length), in source order. -/
def v1MissingField (p : Payload) : Option String :=
  if strMissing p.nombre then some "nombre"
  else if strMissing p.apellidos then some "apellidos"
  else if strMissing p.email then some "email"
  else if strMissing p.telefono then some "telefono"
  else if strMissing p.localidad then some "localidad"
  else if strMissing p.direccion then some "direccion"
  else if p.servicios.isEmpty then some "servicios"
  else if strMissing p.cuidadora then some "cuidadora"
  else if strMissing p.fecha then some "fecha"
  else if p.horas.isEmpty then some "horas"
  else none

/-! ### Availability endpoints -/

/-- Number of bookable entries (taken = false) in a grid. -/
def bookableCount (l : List (Slot × Bool)) : Nat :=
  (l.filter fun rb => rb.2 == false).length

/-- V1 GET /api/slots: caregiver (exact key) → date regex → weekend →
lead-time → fetched grid. Weekend and lead-time days answer 200 with every
range taken. -/
def v1SlotsEndpoint (today lead : Nat) (cuidadora fecha : String)
    (events : List GEvent) : Res V1Err (List (Slot × Bool)) :=
  match CAREGIVERS_V1.lookup cuidadora with
  | none => .error .cuidadoraInvalida
  | some _ =>
    match parseYmd fecha.data with
    | none => .error .fechaInvalida
    | some ymd =>
      let day := dateToDay ymd
      if isWeekend day then .ok (SLOT_RANGES.map fun r => (r, true))
      else if day < addWorkdays today lead then .ok (SLOT_RANGES.map fun r => (r, true))
      else .ok (v1Grid events)

/-- V2 GET /api/slots: presence of params → normalized lookup → date parse
→ weekend → lead → grid; weekend and lead answer 200 with an empty list. -/
def v2SlotsEndpoint (today lead : Nat) (cuidadora fecha : String)
    (events : List GEvent) : Res V2Err (List (Slot × Bool)) :=
  if strFalsy fecha || strFalsy cuidadora then .error .faltanParametros
  else
    match v2Lookup cuidadora with
    | none => .error .cuidadoraDesconocida
    | some _ =>
      match parseYmd fecha.data with
      | none => .error .fechaInvalida
      | some ymd =>
        let day := dateToDay ymd
        if isWeekend day then .ok []
        else if day < addWorkdays today lead then .ok []
        else .ok (v2Grid events)

/-- P1 GET /api/slots: params → date parse → weekend → lead → exact lookup
→ grid. The grid keys events by pad(getUTCHours()+2), which in the Madrid
summer offset is the truncated local hour, i.e. `v2EventKey`. -/
def p1SlotsEndpoint (today lead : Nat) (cuidadora fecha : String)
    (events : List GEvent) : Res V2Err (List (Slot × Bool)) :=
  if strFalsy fecha || strFalsy cuidadora then .error .faltanParametros
  else
    match parseYmd fecha.data with
    | none => .error .fechaInvalida
    | some ymd =>
      let day := dateToDay ymd
      if isWeekend day then .ok []
      else if day < addWorkdays today lead then .ok []
      else
        match caregiversJson.lookup cuidadora with
        | none => .error .cuidadoraDesconocida
        | some _ => .ok (getRanges.map fun r => (r, v2Taken events r))

/-- P2 /api/slots taken test: `!(e <= b.start || s >= b.end)` on the
instants of the requested range and the busy event. -/
def p2Taken (busy : List GEvent) (r : Slot) : Bool :=
  busy.any fun b => !(decide (r.endMin ≤ b.startMin) || decide (b.endMin ≤ r.startMin))

/-- P2 GET /api/slots: presence of params → exact lookup → grid. There is
no date validation, no weekend check and no lead-time check; the date only
parameterizes the calendar fetch. -/
def p2SlotsEndpoint (cuidadora fecha : String) (busy : List GEvent) :
    Res V2Err (List (Slot × Bool)) :=
  if strFalsy fecha || strFalsy cuidadora then .error .faltanParametros
  else
    match caregiversJson.lookup cuidadora with
    | none => .error .cuidadoraDesconocida
    | some _ => .ok (getRanges.map fun r => (r, p2Taken busy r))

/-! ### V1 reservation orchestrator -/

/-- V1 /api/reserve success body: {created, bloques, precio}. -/
structure V1Success where
  created : Nat
  bloques : List Slot
  precio : Precio
deriving DecidableEq

/-- Observable outcome of a reservation handler: the HTTP result, how many
calendar list (read) calls it performed, and the events it inserted. -/
structure V1Outcome where
  result : Res V1Err V1Success
  listCalls : Nat
  inserted : List GEvent
deriving DecidableEq

/-- V1 /api/reserve conflict scan: every requested range that is already
taken, in request order. -/
def v1ConflictList (events : List GEvent) (horas : List Slot) : List Slot :=
  horas.filter fun r => v1Taken events r

/-- The event V1 inserts for one requested range: the range's own bounds,
with `extendedProperties.private.range` stamped. -/
def v1MkEvent (r : Slot) : GEvent := ⟨r.startMin, r.endMin, some r⟩

/-- V1 POST /api/reserve: required fields → caregiver (exact key) → date
regex → weekend → lead-time → fetch + conflict scan → one insert per
requested range → price. -/
def v1Reserve (today lead : Nat) (RATE IVA : ℚ) (p : Payload)
    (events : List GEvent) : V1Outcome :=
  match v1MissingField p with
  | some k => ⟨.error (.campoRequerido k), 0, []⟩
  | none =>
    match CAREGIVERS_V1.lookup p.cuidadora with
    | none => ⟨.error .cuidadoraInvalida, 0, []⟩
    | some _ =>
      match parseYmd p.fecha.data with
      | none => ⟨.error .fechaInvalida, 0, []⟩
      | some ymd =>
        let day := dateToDay ymd
        if isWeekend day then ⟨.error .soloLunesViernes, 0, []⟩
        else if day < addWorkdays today lead then ⟨.error .leadMinimo, 0, []⟩
        else
          let conflicts := v1ConflictList events p.horas
          if conflicts.isEmpty then
            let created := p.horas.map v1MkEvent
            ⟨.ok ⟨created.length, p.horas, v1Precio RATE IVA p.horas⟩, 1, created⟩
          else ⟨.error (.conflicto conflicts), 1, []⟩

/-! ### P2 reservation (merge of contiguous slots, single conflict) -/

/-- P2 `order.get(r)`: the index of a range in the catalog (the Map built
from `ranges()`). -/
def rangeIndex (r : Slot) : Nat := getRanges.findIdx fun x => x == r

/-- Insertion step of the catalog-order sort. -/
def insertByIdx (r : Slot) : List Slot → List Slot
  | [] => [r]
  | x :: xs => if rangeIndex r ≤ rangeIndex x then r :: x :: xs else x :: insertByIdx r xs

/-- P2 `[...horas].sort((a,b) => order.get(a) - order.get(b))`: sort the
requested ranges by catalog position. -/
def sortByCatalog (l : List Slot) : List Slot := l.foldr insertByIdx []

/-- P2 `mergeContiguousSlots`: sort by catalog order, then fuse a range
whose start equals the end of the last merged block into that block. -/
def mergeContiguousSlots (horas : List Slot) : List Slot :=
  (sortByCatalog horas).foldl
    (fun merged r =>
      match merged.getLast? with
      | none => [r]
      | some last =>
        if r.startMin == last.endMin then merged.dropLast ++ [⟨last.startMin, r.endMin⟩]
        else merged ++ [r])
    []

/-- P2 /api/reservar success body: {bloques, created} (created counts the
merged blocks). -/
structure P2Success where
  bloques : List Slot
  created : Nat
deriving DecidableEq

/-- Observable outcome of P2 /api/reservar. -/
structure P2Outcome where
  result : Res P2Err P2Success
  listCalls : Nat
  inserted : List GEvent
deriving DecidableEq

/-- P2 validation cascade (personal data, then services, then
caregiver/date/hours). -/
def p2Missing (p : Payload) : Option P2Err :=
  if strFalsy p.nombre || strFalsy p.apellidos || strFalsy p.email || strFalsy p.telefono
      || strFalsy p.localidad || strFalsy p.direccion then some .faltanDatosPersonales
  else if p.servicios.isEmpty then some .eligeServicio
  else if strFalsy p.cuidadora || strFalsy p.fecha || p.horas.isEmpty then
    some .faltanCuidadoraFechaHoras
  else none

/-- P2 /api/reservar conflict test for one range: `s < b && e > a` against
some busy event. -/
def p2ConflictCheck (busy : List GEvent) (r : Slot) : Bool :=
  busy.any fun b => decide (r.startMin < b.endMin) && decide (b.startMin < r.endMin)

/-- P2 POST /api/reservar: validations → exact lookup → fetch →
`horas.find(conflict)` (aborts on the FIRST conflicting range) → merge
contiguous → one insert per merged block (no weekend or lead-time check,
and the inserted events carry no range metadata). -/
def p2Reservar (p : Payload) (busy : List GEvent) : P2Outcome :=
  match p2Missing p with
  | some e => ⟨.error e, 0, []⟩
  | none =>
    match caregiversJson.lookup p.cuidadora with
    | none => ⟨.error .cuidadoraNoEncontrada, 0, []⟩
    | some _ =>
      match p.horas.find? (p2ConflictCheck busy) with
      | some c => ⟨.error (.conflictoEn c), 1, []⟩
      | none =>
        let bloques := mergeContiguousSlots p.horas
        ⟨.ok ⟨bloques, bloques.length⟩, 1, bloques.map fun b => ⟨b.startMin, b.endMin, none⟩⟩

/-! ### P3a reservation (normalized lookup, mirrored calendars) -/

/-- P3a /api/reserve success body: {createdCount, bloques, precio}. -/
structure P3aSuccess where
  createdCount : Nat
  bloques : List Slot
  precio : Precio
deriving DecidableEq

/-- Observable outcome of P3a /api/reserve; inserted events are tagged with
the calendar they go to (`writeCalendars = [cuidadora, ...ORG_CALENDARS]`). -/
structure P3aOutcome where
  result : Res V2Err P3aSuccess
  listCalls : Nat
  inserted : List (String × GEvent)
deriving DecidableEq

/-- P3a single-shot falsy validation over all required fields. -/
def p3aMissing (p : Payload) : Bool :=
  strFalsy p.nombre || strFalsy p.apellidos || strFalsy p.email || strFalsy p.telefono
    || strFalsy p.localidad || strFalsy p.direccion || p.servicios.isEmpty
    || strFalsy p.cuidadora || strFalsy p.fecha || p.horas.isEmpty

/-- P3a POST /api/reserve: falsy validation → normalized lookup →
`parseDateFlexible` where an invalid date and a weekend date share the
error kind fecha_no_disponible → lead-time → occupied-set conflicts (full
list) → one insert per requested range per write calendar. -/
def p3aReserve (today lead : Nat) (RATE IVA : ℚ) (orgCals : List String)
    (p : Payload) (events : List GEvent) : P3aOutcome :=
  if p3aMissing p then ⟨.error .faltanCampos, 0, []⟩
  else
    match v2Lookup p.cuidadora with
    | none => ⟨.error .cuidadoraDesconocida, 0, []⟩
    | some calId =>
      match parseDateFlexible p.fecha with
      | none => ⟨.error .fechaNoDisponible, 0, []⟩
      | some ymd =>
        let day := dateToDay ymd
        if isWeekend day then ⟨.error .fechaNoDisponible, 0, []⟩
        else if day < addWorkdays today lead then ⟨.error .antesDeLead, 0, []⟩
        else
          let conflicts := p.horas.filter fun r => v2Taken events r
          if conflicts.isEmpty then
            let writeCalendars := calId :: orgCals
            let inserted :=
              (p.horas.map fun r => writeCalendars.map fun c => (c, v1MkEvent r)).flatten
            ⟨.ok ⟨inserted.length, p.horas, v1Precio RATE IVA p.horas⟩, 1, inserted⟩
          else ⟨.error (.conflicto conflicts), 1, []⟩

/-! ### Lemmas about the date arithmetic -/

/-- Number of non-weekend days among d+1, ..., d+n. -/
def workdaysIn (d : Nat) : Nat → Nat
  | 0 => 0
  | n + 1 => workdaysIn d n + (if isWeekend (d + n + 1) then 0 else 1)

/-- Number of non-weekend days in the half-open day interval (d, e]. -/
def workdaysBetween (d e : Nat) : Nat := workdaysIn d (e - d)

lemma isWeekend_iff (d : Nat) :
    isWeekend d = true ↔ ((d + 4) % 7 = 0 ∨ (d + 4) % 7 = 6) := by
  simp [isWeekend, dayOfWeek]

lemma isWeekend_false_iff (d : Nat) :
    isWeekend d = false ↔ ¬((d + 4) % 7 = 0 ∨ (d + 4) % 7 = 6) := by
  rw [← isWeekend_iff]
  cases h : isWeekend d <;> simp

lemma skipWeekend_ge (d : Nat) : d ≤ skipWeekend d := by
  unfold skipWeekend; split_ifs <;> omega

lemma skipWeekend_le (d : Nat) : skipWeekend d ≤ d + 2 := by
  unfold skipWeekend; split_ifs <;> omega

lemma skipWeekend_not_weekend (d : Nat) : isWeekend (skipWeekend d) = false := by
  unfold skipWeekend
  split_ifs with h1 h2
  · rw [isWeekend_iff] at h1 h2
    rw [isWeekend_false_iff]
    omega
  · simpa using h2
  · simpa using h1

lemma skipWeekend_min (d k : Nat) (h1 : d ≤ k) (h2 : k < skipWeekend d) :
    isWeekend k = true := by
  unfold skipWeekend at h2
  split_ifs at h2 with hw1 hw2
  · have hk : k = d ∨ k = d + 1 := by omega
    rcases hk with rfl | rfl
    · exact hw1
    · exact hw2
  · have hk : k = d := by omega
    subst hk; exact hw1
  · omega

lemma addWorkdays_zero (d : Nat) : addWorkdays d 0 = d := rfl

lemma addWorkdays_succ (d n : Nat) :
    addWorkdays d (n + 1) = addWorkdays (skipWeekend (d + 1)) n := rfl

lemma workdaysIn_add (d a b : Nat) :
    workdaysIn d (a + b) = workdaysIn d a + workdaysIn (d + a) b := by
  induction b with
  | zero => simp [workdaysIn]
  | succ b ih =>
    rw [show a + (b + 1) = (a + b) + 1 from rfl]
    rw [workdaysIn, ih, workdaysIn]
    have harg : d + (a + b) + 1 = d + a + b + 1 := by omega
    rw [harg, Nat.add_assoc]

lemma workdaysBetween_add (d s e : Nat) (h1 : d ≤ s) (h2 : s ≤ e) :
    workdaysBetween d e = workdaysBetween d s + workdaysBetween s e := by
  unfold workdaysBetween
  rw [show e - d = (s - d) + (e - s) from by omega, workdaysIn_add,
    show d + (s - d) = s from by omega]

lemma workdaysIn_zero_of_weekend (d m : Nat)
    (h : ∀ k, d < k → k ≤ d + m → isWeekend k = true) : workdaysIn d m = 0 := by
  induction m with
  | zero => simp [workdaysIn]
  | succ m ih =>
    rw [workdaysIn, ih fun k hk1 hk2 => h k hk1 (by omega),
      h (d + m + 1) (by omega) (by omega)]
    simp

lemma workdaysBetween_single (d e : Nat) (hlt : d < e)
    (hwe : isWeekend e = false)
    (hmid : ∀ k, d < k → k < e → isWeekend k = true) :
    workdaysBetween d e = 1 := by
  unfold workdaysBetween
  rw [show e - d = (e - d - 1) + 1 from by omega, workdaysIn,
    show d + (e - d - 1) + 1 = e from by omega, hwe,
    workdaysIn_zero_of_weekend d (e - d - 1) fun k hk1 hk2 => hmid k hk1 (by omega)]
  simp

/-- Characterization: `addWorkdays d n` is exactly the spec's walk: it is the first day at or
after d with n non-weekend days strictly after d, and for n > 0 it lands on
a non-weekend day. -/
lemma addWorkdays_spec (n : Nat) : ∀ d : Nat,
    d ≤ addWorkdays d n
    ∧ workdaysBetween d (addWorkdays d n) = n
    ∧ (0 < n → isWeekend (addWorkdays d n) = false)
    ∧ (∀ e, d ≤ e → e < addWorkdays d n → workdaysBetween d e < n) := by
  induction n with
  | zero =>
    intro d
    refine ⟨Nat.le_refl d, by rw [addWorkdays_zero]; simp [workdaysBetween, workdaysIn], ?_, ?_⟩
    · intro h; exact absurd h (by omega)
    · intro e h1 h2; rw [addWorkdays_zero] at h2; omega
  | succ n ih =>
    intro d
    have hs1 : d + 1 ≤ skipWeekend (d + 1) := skipWeekend_ge (d + 1)
    have hsw : isWeekend (skipWeekend (d + 1)) = false := skipWeekend_not_weekend (d + 1)
    have hmid : ∀ k, d < k → k < skipWeekend (d + 1) → isWeekend k = true :=
      fun k hk1 hk2 => skipWeekend_min (d + 1) k (by omega) hk2
    obtain ⟨ih1, ih2, ih3, ih4⟩ := ih (skipWeekend (d + 1))
    rw [addWorkdays_succ]
    have hds : workdaysBetween d (skipWeekend (d + 1)) = 1 :=
      workdaysBetween_single d (skipWeekend (d + 1)) (by omega) hsw hmid
    refine ⟨by omega, ?_, ?_, ?_⟩
    · rw [workdaysBetween_add d (skipWeekend (d + 1)) _ (by omega) ih1, hds, ih2]
      omega
    · intro _
      cases n with
      | zero => rw [addWorkdays_zero]; exact hsw
      | succ m => exact ih3 (by omega)
    · intro e he1 he2
      by_cases hcase : e < skipWeekend (d + 1)
      · have hzero : workdaysBetween d e = 0 := by
          unfold workdaysBetween
          exact workdaysIn_zero_of_weekend d (e - d) fun k hk1 hk2 => hmid k hk1 (by omega)
        omega
      · push_neg at hcase
        have hlt := ih4 e hcase he2
        have heq : workdaysBetween d e = 1 + workdaysBetween (skipWeekend (d + 1)) e := by
          rw [workdaysBetween_add d (skipWeekend (d + 1)) e (by omega) hcase, hds]
        omega

/-- From a Monday, adding five workdays lands on the following Monday. -/
lemma addWorkdays_monday (d : Nat) (h : dayOfWeek d = 1) :
    addWorkdays d 5 = d + 7 := by
  have h4 : d % 7 = 4 := by unfold dayOfWeek at h; omega
  have w1 : isWeekend (d + 1) = false := by rw [isWeekend_false_iff]; omega
  have w2 : isWeekend (d + 2) = false := by rw [isWeekend_false_iff]; omega
  have w3 : isWeekend (d + 3) = false := by rw [isWeekend_false_iff]; omega
  have w4 : isWeekend (d + 4) = false := by rw [isWeekend_false_iff]; omega
  have s5 : isWeekend (d + 5) = true := by rw [isWeekend_iff]; omega
  have s6 : isWeekend (d + 6) = true := by rw [isWeekend_iff]; omega
  have k1 : skipWeekend (d + 1) = d + 1 := by unfold skipWeekend; rw [w1]; simp
  have k2 : skipWeekend (d + 1 + 1) = d + 2 := by
    rw [show d + 1 + 1 = d + 2 from by omega]; unfold skipWeekend; rw [w2]; simp
  have k3 : skipWeekend (d + 2 + 1) = d + 3 := by
    rw [show d + 2 + 1 = d + 3 from by omega]; unfold skipWeekend; rw [w3]; simp
  have k4 : skipWeekend (d + 3 + 1) = d + 4 := by
    rw [show d + 3 + 1 = d + 4 from by omega]; unfold skipWeekend; rw [w4]; simp
  have k5 : skipWeekend (d + 4 + 1) = d + 7 := by
    rw [show d + 4 + 1 = d + 5 from by omega]; unfold skipWeekend
    rw [s5, show d + 5 + 1 = d + 6 from by omega, s6]
    simp
  rw [show (5 : Nat) = 4 + 1 from rfl, addWorkdays_succ, k1,
    show (4 : Nat) = 3 + 1 from rfl, addWorkdays_succ, k2,
    show (3 : Nat) = 2 + 1 from rfl, addWorkdays_succ, k3,
    show (2 : Nat) = 1 + 1 from rfl, addWorkdays_succ, k4,
    show (1 : Nat) = 0 + 1 from rfl, addWorkdays_succ, k5, addWorkdays_zero]

/-! ### Lemmas about overlap, grids and lists -/

/-- For nonempty ranges, the code's max/min test is exactly the spec's
strict half-open overlap predicate. -/
lemma overlap_iff_spec (a b : Slot) (ha : a.startMin < a.endMin)
    (hb : b.startMin < b.endMin) : overlap a b = true ↔ specOverlap a b := by
  unfold overlap specOverlap
  rw [decide_eq_true_iff]
  omega

lemma v1Taken_iff (events : List GEvent) (r : Slot) :
    v1Taken events r = true ↔ ∃ ev ∈ events, overlap (v1EventSlot ev) r = true := by
  unfold v1Taken
  rw [List.any_eq_true]

lemma v2Taken_iff (events : List GEvent) (r : Slot) :
    v2Taken events r = true ↔ ∃ ev ∈ events, v2EventKey ev = r := by
  unfold v2Taken
  rw [List.any_eq_true]
  simp

lemma mem_v1ConflictList (events : List GEvent) (horas : List Slot) (r : Slot) :
    r ∈ v1ConflictList events horas ↔ r ∈ horas ∧ v1Taken events r = true := by
  unfold v1ConflictList
  rw [List.mem_filter]

lemma bookableCount_allTaken (l : List Slot) :
    bookableCount (l.map fun r => (r, true)) = 0 := by
  induction l with
  | nil => rfl
  | cons x xs ih => simp [bookableCount, List.filter]

lemma parseYmd_ne_nil (cs : List Char) (ymd : Nat × Nat × Nat)
    (h : parseYmd cs = some ymd) : cs ≠ [] := by
  intro hnil
  subst hnil
  simp [parseYmd] at h

lemma length_flatten_map_map {α β γ : Type} (hs : List α) (cs : List β)
    (f : α → β → γ) :
    ((hs.map fun r => cs.map fun c => f r c).flatten).length = hs.length * cs.length := by
  induction hs with
  | nil => simp
  | cons x xs ih => simp [ih, Nat.succ_mul, Nat.add_comm]

/-- Rounding to cents is the identity on an exact number of cents. -/
lemma round2_cents (m : ℤ) : round2 ((m : ℚ) / 100) = (m : ℚ) / 100 := by
  unfold round2
  have h1 : (m : ℚ) / 100 * 100 = (m : ℚ) := by ring
  have h2 : ⌊(m : ℚ) + 1 / 2⌋ = m := by
    rw [add_comm, Int.floor_add_int]
    norm_num
  rw [h1, h2]

/-! ### Concrete sample data for witnesses and counterexamples -/

/-- Raquel's calendar id in V1's table. -/
def raquelCalV1 : String :=
  "fe9a8085d8db29f888a6382935c82e20f33d476347adfe6416582401d377454d@group.calendar.google.com"

/-- A Monday used as "today" in concrete runs (2025-10-13). -/
def today0 : Nat := daysFromCivil 2025 10 13

/-- A fully filled reservation request for Raquel on Monday 2025-10-20
asking for the 09:00-10:00 range. -/
def samplePayload : Payload :=
  ⟨"Ana", "Pérez", "ana@example.com", "600111222", "Madrid", "Calle Mayor 1",
   ["compañía"], "Raquel", "2025-10-20", [⟨540, 600⟩]⟩

/-! ### Claim C1 -/

/-- C1 counterexample: the second server.js variant's availability query
does not use the overlap predicate. The event covering [09:30,10:30)
overlaps the 10:00-11:00 catalog range under the strict half-open
predicate, yet that variant's grid reports the range as not taken (its
taken Set only holds the event's hour-truncated bounds 09:00-10:00). -/
theorem claim_C1_cex :
    specOverlap ⟨570, 630⟩ ⟨600, 660⟩
    ∧ v2Taken [⟨570, 630, none⟩] ⟨600, 660⟩ = false
    ∧ (⟨600, 660⟩, false) ∈ v2Grid [⟨570, 630, none⟩] := by
  decide

/-- C1 (amended): in the FIRST server.js variant a catalog range is marked
taken — in the availability grid and equally in the booking-time conflict
list — iff it overlaps at least one fetched event (through the event's
stored range when present, else its own bounds) under the strict half-open
predicate start_A < end_B ∧ start_B < end_A; an event covering
[09:30,10:30) marks exactly the 09:00-10:00 and 10:00-11:00 ranges and no
other. The second variant instead marks a range taken iff its bounds equal
the event's hour-truncated bounds, so the partial-overlap rule fails
there. -/
theorem claim_C1_thm (events : List GEvent) (r : Slot)
    (hr : r.startMin < r.endMin)
    (hev : ∀ ev ∈ events, (v1EventSlot ev).startMin < (v1EventSlot ev).endMin) :
    (v1Taken events r = true ↔ ∃ ev ∈ events, specOverlap (v1EventSlot ev) r)
    ∧ (∀ horas, r ∈ v1ConflictList events horas ↔ r ∈ horas ∧ v1Taken events r = true)
    ∧ v1Grid [⟨570, 630, none⟩] =
        [(⟨540, 600⟩, true), (⟨600, 660⟩, true), (⟨660, 720⟩, false),
         (⟨720, 780⟩, false), (⟨780, 840⟩, false), (⟨1020, 1080⟩, false),
         (⟨1080, 1140⟩, false), (⟨1140, 1200⟩, false)]
    ∧ (v2Taken events r = true ↔ ∃ ev ∈ events, v2EventKey ev = r) := by
  refine ⟨?_, fun horas => mem_v1ConflictList events horas r, by decide,
    v2Taken_iff events r⟩
  rw [v1Taken_iff]
  constructor
  · rintro ⟨ev, hm, hov⟩
    exact ⟨ev, hm, (overlap_iff_spec _ _ (hev ev hm) hr).1 hov⟩
  · rintro ⟨ev, hm, hov⟩
    exact ⟨ev, hm, (overlap_iff_spec _ _ (hev ev hm) hr).2 hov⟩

/-- C1 witness: the amended theorem applied to the [09:30,10:30) event. -/
theorem claim_C1_wit :
    v1Taken [⟨570, 630, none⟩] ⟨600, 660⟩ = true
    ∧ v1Grid [⟨570, 630, none⟩] =
        [(⟨540, 600⟩, true), (⟨600, 660⟩, true), (⟨660, 720⟩, false),
         (⟨720, 780⟩, false), (⟨780, 840⟩, false), (⟨1020, 1080⟩, false),
         (⟨1080, 1140⟩, false), (⟨1140, 1200⟩, false)] := by
  have h := claim_C1_thm [⟨570, 630, none⟩] ⟨600, 660⟩ (by decide) (by decide)
  exact ⟨h.1.2 ⟨⟨570, 630, none⟩, by decide, by decide⟩, h.2.2.1⟩

/-! ### Claim C5 -/

/-- C5: the earliest bookable date walks forward from today one day at a
time counting only non-weekend days (addWorkdays lands exactly n workdays
ahead, minimally, on a non-weekend day for n > 0); 0 means no restriction;
a date strictly before the earliest date is rejected with the lead error
and a date at or after it never is; from a Monday, five workdays land on
the following Monday. -/
theorem claim_C5_thm (today n : Nat) :
    addWorkdays today 0 = today
    ∧ (today ≤ addWorkdays today n
       ∧ workdaysBetween today (addWorkdays today n) = n
       ∧ (0 < n → isWeekend (addWorkdays today n) = false)
       ∧ (∀ e, today ≤ e → e < addWorkdays today n → workdaysBetween today e < n))
    ∧ (dayOfWeek today = 1 → addWorkdays today 5 = today + 7)
    ∧ (∀ lead RATE IVA (p : Payload) events cal ymd,
        v1MissingField p = none →
        CAREGIVERS_V1.lookup p.cuidadora = some cal →
        parseYmd p.fecha.data = some ymd →
        isWeekend (dateToDay ymd) = false →
        (dateToDay ymd < addWorkdays today lead →
          v1Reserve today lead RATE IVA p events = ⟨.error .leadMinimo, 0, []⟩)
        ∧ (addWorkdays today lead ≤ dateToDay ymd →
          (v1Reserve today lead RATE IVA p events).result ≠ .error .leadMinimo)) := by
  refine ⟨rfl, addWorkdays_spec n today, addWorkdays_monday today, ?_⟩
  intro lead RATE IVA p events cal ymd hm hc hp hw
  constructor
  · intro hlt
    simp only [v1Reserve, hm, hc, hp, hw, Bool.false_eq_true, if_false]
    rw [if_pos hlt]
  · intro hge
    simp only [v1Reserve, hm, hc, hp, hw, Bool.false_eq_true, if_false]
    rw [if_neg (by omega : ¬ dateToDay ymd < addWorkdays today lead)]
    by_cases hconf : (v1ConflictList events p.horas).isEmpty
    · rw [if_pos hconf]; simp
    · rw [if_neg hconf]; simp

/-- C5 witness: day 4 (1970-01-05) is a Monday and five workdays later is
day 11, the following Monday; and the concrete lead-time rejection of
Wednesday 2025-10-15 when today is Monday 2025-10-13 with five lead
workdays. -/
theorem claim_C5_wit :
    addWorkdays 4 5 = 4 + 7
    ∧ v1Reserve today0 5 18 (1 / 10)
        { samplePayload with fecha := "2025-10-15" } [] =
        ⟨.error .leadMinimo, 0, []⟩ := by
  refine ⟨(claim_C5_thm 4 5).2.2.1 (by decide), ?_⟩
  exact ((claim_C5_thm today0 5).2.2.2 5 18 (1 / 10)
    { samplePayload with fecha := "2025-10-15" } [] raquelCalV1 (2025, 10, 15)
    (by decide) (by decide) (by decide) (by decide)).1 (by decide)

/-! ### Claim C6 -/

/-- C6: the returned price breakdown satisfies subtotal = rate * count,
tax = subtotal * taxRate and total = subtotal + tax = subtotal * (1 + tax
rate), exactly; this holds for the V1/V2/P3a formula at any rates, and for
P4a — whose toFixed(2) steps are the identity at its hardcoded rates 18
and 0.1 — as well. -/
theorem claim_C6_thm (RATE IVA : ℚ) (horas : List Slot) (n : Nat) :
    ((v1Precio RATE IVA horas).horas = horas.length
      ∧ (v1Precio RATE IVA horas).subtotal = RATE * horas.length
      ∧ (v1Precio RATE IVA horas).iva = (v1Precio RATE IVA horas).subtotal * IVA
      ∧ (v1Precio RATE IVA horas).total =
          (v1Precio RATE IVA horas).subtotal + (v1Precio RATE IVA horas).iva
      ∧ (v1Precio RATE IVA horas).total = (v1Precio RATE IVA horas).subtotal * (1 + IVA))
    ∧ ((p4aPrecio n).subtotal = 18 * n
      ∧ (p4aPrecio n).iva = (p4aPrecio n).subtotal * (1 / 10)
      ∧ (p4aPrecio n).total = (p4aPrecio n).subtotal + (p4aPrecio n).iva
      ∧ (p4aPrecio n).total = (p4aPrecio n).subtotal * (1 + 1 / 10)) := by
  have hiva : (p4aPrecio n).iva = 9 * (n : ℚ) / 5 := by
    show round2 ((n : ℚ) * 18 * (1 / 10)) = 9 * (n : ℚ) / 5
    have h : (n : ℚ) * 18 * (1 / 10) = ((180 * (n : ℤ) : ℤ) : ℚ) / 100 := by
      push_cast; ring
    rw [h, round2_cents]
    push_cast; ring
  have htot : (p4aPrecio n).total = 99 * (n : ℚ) / 5 := by
    show round2 ((n : ℚ) * 18 + (p4aPrecio n).iva) = 99 * (n : ℚ) / 5
    rw [hiva]
    have h : (n : ℚ) * 18 + 9 * (n : ℚ) / 5 = ((1980 * (n : ℤ) : ℤ) : ℚ) / 100 := by
      push_cast; ring
    rw [h, round2_cents]
    push_cast; ring
  refine ⟨⟨rfl, by simp [v1Precio]; ring, rfl, rfl, by simp [v1Precio]; ring⟩,
    ⟨by simp [p4aPrecio]; ring, ?_, ?_, ?_⟩⟩
  · rw [hiva]; show (9 : ℚ) * n / 5 = (n : ℚ) * 18 * (1 / 10); ring
  · rw [htot, hiva]; show (99 : ℚ) * n / 5 = (n : ℚ) * 18 + 9 * n / 5; ring
  · rw [htot]; show (99 : ℚ) * n / 5 = (n : ℚ) * 18 * (1 + 1 / 10); ring

/-! ### Inversion lemmas for successful reservations -/

/-- A successful V1 reservation response is fully determined: it echoes the
requested ranges, counts them, prices them, and one event per requested
range is inserted. -/
lemma v1Reserve_ok_inv (today lead : Nat) (RATE IVA : ℚ) (p : Payload)
    (events : List GEvent) (s : V1Success)
    (h : (v1Reserve today lead RATE IVA p events).result = .ok s) :
    s = ⟨p.horas.length, p.horas, v1Precio RATE IVA p.horas⟩
    ∧ (v1Reserve today lead RATE IVA p events).inserted = p.horas.map v1MkEvent := by
  rcases hm : v1MissingField p with _ | k
  · rcases hc : CAREGIVERS_V1.lookup p.cuidadora with _ | cal
    · simp [v1Reserve, hm, hc] at h
    · rcases hp : parseYmd p.fecha.data with _ | ymd
      · simp [v1Reserve, hm, hc, hp] at h
      · by_cases hw : isWeekend (dateToDay ymd) = true
        · simp [v1Reserve, hm, hc, hp, hw] at h
        · rw [Bool.not_eq_true] at hw
          by_cases hl : dateToDay ymd < addWorkdays today lead
          · simp [v1Reserve, hm, hc, hp, hw, hl] at h
          · by_cases hcf : (v1ConflictList events p.horas).isEmpty = true
            · simp only [v1Reserve, hm, hc, hp, hw, hl, hcf, Bool.false_eq_true,
                if_false, if_true] at h ⊢
              injection h with h'
              subst h'
              exact ⟨by simp, trivial⟩
            · simp [v1Reserve, hm, hc, hp, hw, hl, hcf] at h
  · simp [v1Reserve, hm] at h

/-- A successful P2 reservation response reports the merged blocks and one
inserted event per merged block (not per requested range). -/
lemma p2Reservar_ok_inv (p : Payload) (busy : List GEvent) (s : P2Success)
    (h : (p2Reservar p busy).result = .ok s) :
    s = ⟨mergeContiguousSlots p.horas, (mergeContiguousSlots p.horas).length⟩
    ∧ (p2Reservar p busy).inserted =
        (mergeContiguousSlots p.horas).map fun b => ⟨b.startMin, b.endMin, none⟩ := by
  rcases hm : p2Missing p with _ | e
  · rcases hc : caregiversJson.lookup p.cuidadora with _ | cal
    · simp [p2Reservar, hm, hc] at h
    · rcases hf : p.horas.find? (p2ConflictCheck busy) with _ | c
      · simp only [p2Reservar, hm, hc, hf] at h ⊢
        injection h with h'
        subst h'
        exact ⟨rfl, trivial⟩
      · simp [p2Reservar, hm, hc, hf] at h
  · simp [p2Reservar, hm] at h

/-- A successful P3a reservation creates one event per requested range per
write calendar (the caregiver's calendar plus every ORG_CALENDARS entry). -/
lemma p3aReserve_ok_inv (today lead : Nat) (RATE IVA : ℚ) (orgCals : List String)
    (p : Payload) (events : List GEvent) (s : P3aSuccess)
    (h : (p3aReserve today lead RATE IVA orgCals p events).result = .ok s) :
    s.createdCount = p.horas.length * (orgCals.length + 1)
    ∧ (p3aReserve today lead RATE IVA orgCals p events).inserted.length =
        p.horas.length * (orgCals.length + 1) := by
  by_cases hm : p3aMissing p = true
  · simp [p3aReserve, hm] at h
  · rw [Bool.not_eq_true] at hm
    rcases hc : v2Lookup p.cuidadora with _ | cal
    · simp [p3aReserve, hm, hc] at h
    · rcases hf : parseDateFlexible p.fecha with _ | ymd
      · simp [p3aReserve, hm, hc, hf] at h
      · by_cases hw : isWeekend (dateToDay ymd) = true
        · simp [p3aReserve, hm, hc, hf, hw] at h
        · rw [Bool.not_eq_true] at hw
          by_cases hl : dateToDay ymd < addWorkdays today lead
          · simp [p3aReserve, hm, hc, hf, hw, hl] at h
          · by_cases hcf : (p.horas.filter fun r => v2Taken events r).isEmpty = true
            · simp only [p3aReserve, hm, hc, hf, hw, hl, hcf, Bool.false_eq_true,
                if_false, if_true] at h ⊢
              injection h with h'
              subst h'
              have hlen := length_flatten_map_map p.horas (cal :: orgCals)
                (fun r c => (c, v1MkEvent r))
              constructor
              · show ((p.horas.map fun r =>
                    (cal :: orgCals).map fun c => (c, v1MkEvent r)).flatten).length = _
                rw [hlen]; simp
              · show ((p.horas.map fun r =>
                    (cal :: orgCals).map fun c => (c, v1MkEvent r)).flatten).length = _
                rw [hlen]; simp
            · simp [p3aReserve, hm, hc, hf, hw, hl, hcf] at h

/-! ### Claim C2 -/

/-- C2 counterexample: in P2's /api/reservar both requested ranges conflict
with the existing 09:00-11:00 event, yet the 409 response names only the
first one found ("Conflicto en 09:00-10:00"); the second conflicting range
is absent from the error. (No events are created, which part of the claim
does hold.) -/
theorem claim_C2_cex :
    p2ConflictCheck [⟨540, 660, none⟩] ⟨540, 600⟩ = true
    ∧ p2ConflictCheck [⟨540, 660, none⟩] ⟨600, 660⟩ = true
    ∧ p2Reservar { samplePayload with horas := [⟨540, 600⟩, ⟨600, 660⟩] }
        [⟨540, 660, none⟩] = ⟨.error (.conflictoEn ⟨540, 600⟩), 1, []⟩
    ∧ (⟨600, 660⟩ : Slot) ≠ (⟨540, 600⟩ : Slot) := by
  decide

/-- C2 (amended): a reservation with an occupied requested range aborts
with a conflict error and zero events are created; the first server.js
variant reports the full list of conflicting ranges (exactly the requested
ranges that are taken), while P2's endpoint reports only the first
conflicting range in request order. -/
theorem claim_C2_thm (today lead : Nat) (RATE IVA : ℚ) (p : Payload)
    (events busy : List GEvent) :
    (∀ cal ymd, v1MissingField p = none →
      CAREGIVERS_V1.lookup p.cuidadora = some cal →
      parseYmd p.fecha.data = some ymd →
      isWeekend (dateToDay ymd) = false →
      addWorkdays today lead ≤ dateToDay ymd →
      v1ConflictList events p.horas ≠ [] →
      v1Reserve today lead RATE IVA p events =
        ⟨.error (.conflicto (v1ConflictList events p.horas)), 1, []⟩)
    ∧ (∀ r, r ∈ v1ConflictList events p.horas ↔ r ∈ p.horas ∧ v1Taken events r = true)
    ∧ (∀ c, p2Missing p = none →
      caregiversJson.lookup p.cuidadora = some "raquel-cal" →
      p.horas.find? (p2ConflictCheck busy) = some c →
      p2Reservar p busy = ⟨.error (.conflictoEn c), 1, []⟩) := by
  refine ⟨?_, fun r => mem_v1ConflictList events p.horas r, ?_⟩
  · intro cal ymd hm hc hp hw hl hne
    have hcf : (v1ConflictList events p.horas).isEmpty = false := by
      cases hcl : v1ConflictList events p.horas with
      | nil => exact absurd hcl hne
      | cons a l => rfl
    simp only [v1Reserve, hm, hc, hp, hw, Bool.false_eq_true, if_false, hcf]
    rw [if_neg (by omega : ¬ dateToDay ymd < addWorkdays today lead)]
  · intro c hm hc hf
    simp only [p2Reservar, hm, hc, hf]

/-- C2 witness: the amended theorem applied to P2's single-conflict report
on a request whose two ranges are both occupied. -/
theorem claim_C2_wit :
    p2Reservar { samplePayload with horas := [⟨540, 600⟩, ⟨600, 660⟩] }
      [⟨540, 660, none⟩] = ⟨.error (.conflictoEn ⟨540, 600⟩), 1, []⟩ :=
  (claim_C2_thm 0 0 18 (1 / 10)
    { samplePayload with horas := [⟨540, 600⟩, ⟨600, 660⟩] } [] [⟨540, 660, none⟩]).2.2
    ⟨540, 600⟩ (by decide) (by decide) (by decide)

/-! ### Claim C3 -/

/-- C3 counterexample: P2 merges contiguous requested ranges before
inserting — requesting both 18:00-19:00 and 19:00-20:00 succeeds with
created = 1, a single inserted event 18:00-20:00, instead of exactly one
event per requested range (2). -/
theorem claim_C3_cex :
    p2Reservar { samplePayload with horas := [⟨1080, 1140⟩, ⟨1140, 1200⟩] } [] =
      ⟨.ok ⟨[⟨1080, 1200⟩], 1⟩, 1, [⟨1080, 1200, none⟩]⟩
    ∧ ({ samplePayload with horas := [⟨1080, 1140⟩, ⟨1140, 1200⟩] } : Payload).horas.length = 2
    ∧ (1 : Nat) ≠ 2 := by
  decide

/-- C3 (amended): a reservation that passes every check creates, in the
first server.js variant, exactly one event per requested range with the
created count equal to the number of requested ranges; P2 instead creates
one event per merged contiguous block (its created count is the number of
merged blocks); P3a creates one event per requested range per write
calendar (caregiver calendar plus ORG_CALENDARS). -/
theorem claim_C3_thm (today lead : Nat) (RATE IVA : ℚ) (orgCals : List String)
    (p : Payload) (events busy : List GEvent) :
    (∀ s, (v1Reserve today lead RATE IVA p events).result = .ok s →
      s.created = p.horas.length
      ∧ (v1Reserve today lead RATE IVA p events).inserted = p.horas.map v1MkEvent)
    ∧ (∀ s, (p2Reservar p busy).result = .ok s →
      s.created = (mergeContiguousSlots p.horas).length
      ∧ (p2Reservar p busy).inserted.length = (mergeContiguousSlots p.horas).length)
    ∧ (∀ s, (p3aReserve today lead RATE IVA orgCals p events).result = .ok s →
      s.createdCount = p.horas.length * (orgCals.length + 1)) := by
  refine ⟨?_, ?_, ?_⟩
  · intro s h
    obtain ⟨hs, hins⟩ := v1Reserve_ok_inv today lead RATE IVA p events s h
    subst hs
    exact ⟨rfl, hins⟩
  · intro s h
    obtain ⟨hs, hins⟩ := p2Reservar_ok_inv p busy s h
    subst hs
    exact ⟨rfl, by rw [hins]; simp⟩
  · intro s h
    exact (p3aReserve_ok_inv today lead RATE IVA orgCals p events s h).1

/-- C3 witness: the amended theorem applied to the concrete contiguous
P2 request (created count = number of merged blocks = 1). -/
theorem claim_C3_wit :
    (⟨[⟨1080, 1200⟩], 1⟩ : P2Success).created =
      (mergeContiguousSlots [⟨1080, 1140⟩, ⟨1140, 1200⟩]).length :=
  ((claim_C3_thm 0 0 18 (1 / 10) []
      { samplePayload with horas := [⟨1080, 1140⟩, ⟨1140, 1200⟩] } [] []).2.1
    ⟨[⟨1080, 1200⟩], 1⟩ (by decide)).1

/-! ### Claim C4 -/

/-- C4 counterexample: P2's availability query performs no weekend check —
on Saturday 2025-09-27 with no events it returns the full grid with every
range bookable (9 entries with taken = false) instead of zero bookable
ranges. -/
theorem claim_C4_cex :
    isWeekend (dateToDay (2025, 9, 27)) = true
    ∧ p2SlotsEndpoint "Raquel" "2025-09-27" [] = .ok (getRanges.map fun r => (r, false))
    ∧ bookableCount (getRanges.map fun r => (r, false)) = 9 := by
  decide

/-- C4 (amended): on a weekend date the first server.js variant's
availability query returns the grid with every range taken (zero bookable)
and P1's returns an empty list (zero bookable); P2's availability query
does not check the weekday at all and can return bookable ranges. -/
theorem claim_C4_thm (today lead : Nat) (c f : String) (evs : List GEvent)
    (ymd : Nat × Nat × Nat) (hp : parseYmd f.data = some ymd)
    (hw : isWeekend (dateToDay ymd) = true)
    (hc : (CAREGIVERS_V1.lookup c).isSome = true)
    (hcne : strFalsy c = false) :
    (∀ slots, v1SlotsEndpoint today lead c f evs = .ok slots → bookableCount slots = 0)
    ∧ p1SlotsEndpoint today lead c f evs = .ok [] := by
  obtain ⟨cal, hcal⟩ := Option.isSome_iff_exists.mp hc
  have hfne : strFalsy f = false := by
    unfold strFalsy
    rw [beq_eq_false_iff_ne]
    exact parseYmd_ne_nil f.data ymd hp
  constructor
  · intro slots h
    simp only [v1SlotsEndpoint, hcal, hp, hw, if_true] at h
    rw [Res.ok.injEq] at h
    rw [← h]
    exact bookableCount_allTaken SLOT_RANGES
  · simp only [p1SlotsEndpoint, hfne, hcne, Bool.or_self, Bool.false_eq_true,
      if_false, hp, hw, if_true]

/-- C4 witness: the amended theorem at Saturday 2025-09-27 for Raquel. -/
theorem claim_C4_wit :
    bookableCount (SLOT_RANGES.map fun r => (r, true)) = 0
    ∧ p1SlotsEndpoint 0 0 "Raquel" "2025-09-27" [] = .ok [] := by
  have h := claim_C4_thm 0 0 "Raquel" "2025-09-27" [] (2025, 9, 27)
    (by decide) (by decide) (by decide) (by decide)
  exact ⟨h.1 _ (by decide), h.2⟩

/-! ### Claim C7 -/

/-- C7 counterexample: V1 looks resources up by exact object key — the
name "raquel", which differs from the configured "Raquel" only by letter
case, does not resolve and its availability query answers with the
unknown-caregiver error. -/
theorem claim_C7_cex :
    ("Raquel", raquelCalV1) ∈ CAREGIVERS_V1
    ∧ "raquel".data.map charFold = "Raquel".data.map charFold
    ∧ CAREGIVERS_V1.lookup "raquel" = none
    ∧ v1SlotsEndpoint 0 0 "raquel" "2025-10-20" [] = .error .cuidadoraInvalida := by
  decide

/-- C7 (amended): in the variants that pre-normalize the caregiver index
(second server.js variant, part_000, part_003) any input name equal to a
configured name up to letter case and diacritics resolves to that
resource's calendar id, and a name whose normalized form matches no
configured resource yields the distinct cuidadora_desconocida error; the
first server.js variant, part_001 and part_002 use exact key lookup, so a
case or accent variant there is rejected as unknown. -/
theorem claim_C7_thm (s k v f : String) (today lead : Nat) (evs : List GEvent) :
    ((k, v) ∈ caregiversJson → s.data.map charFold = k.data.map charFold →
      v2Lookup s = some v)
    ∧ (v2Lookup s = none → strFalsy s = false → strFalsy f = false →
      v2SlotsEndpoint today lead s f evs = .error .cuidadoraDesconocida)
    ∧ (V2Err.cuidadoraDesconocida ≠ V2Err.faltanParametros
      ∧ V2Err.cuidadoraDesconocida ≠ V2Err.fechaInvalida
      ∧ V2Err.cuidadoraDesconocida ≠ V2Err.fechaNoDisponible
      ∧ V2Err.cuidadoraDesconocida ≠ V2Err.antesDeLead) := by
  refine ⟨?_, ?_, by decide⟩
  · intro hmem heq
    have hfold : foldName s = foldName k := by
      unfold foldName; rw [heq]
    simp only [caregiversJson, List.mem_cons, List.not_mem_nil, or_false,
      Prod.mk.injEq] at hmem
    rcases hmem with ⟨rfl, rfl⟩ | ⟨rfl, rfl⟩ | ⟨rfl, rfl⟩ <;>
      (unfold v2Lookup; rw [hfold]; decide)
  · intro hnone hs hf
    simp only [v2SlotsEndpoint, hs, hf, Bool.or_self, Bool.false_eq_true,
      if_false, hnone]

/-- C7 witness: "RAQUÉL" (case and accent variant of "Raquel") resolves to
Raquel's calendar in the normalized index, and an unconfigured name gets
the distinct not-found error. -/
theorem claim_C7_wit :
    v2Lookup "RAQUÉL" = some "raquel-cal"
    ∧ v2SlotsEndpoint 0 0 "Pepa" "2025-10-20" [] = .error .cuidadoraDesconocida := by
  refine ⟨(claim_C7_thm "RAQUÉL" "Raquel" "raquel-cal" "x" 0 0 []).1 (by decide) (by decide), ?_⟩
  exact (claim_C7_thm "Pepa" "Raquel" "raquel-cal" "2025-10-20" 0 0 []).2.1
    (by decide) (by decide) (by decide)

/-! ### Claim C8 -/

/-- C8 counterexample: P3a's reservation endpoint answers the unparseable
date "garbage" and the well-formed Saturday 2025-09-27 with the SAME error
kind fecha_no_disponible, so the unparseable case is not distinct from the
valid-but-not-bookable case. -/
theorem claim_C8_cex :
    parseDateFlexible "garbage" = none
    ∧ parseDateFlexible "2025-09-27" = some (2025, 9, 27)
    ∧ isWeekend (dateToDay (2025, 9, 27)) = true
    ∧ (p3aReserve today0 5 18 (1 / 10) []
        { samplePayload with fecha := "garbage" } []).result = .error .fechaNoDisponible
    ∧ (p3aReserve today0 5 18 (1 / 10) []
        { samplePayload with fecha := "2025-09-27" } []).result = .error .fechaNoDisponible := by
  decide

/-- C8 (amended): the availability queries that validate the date (V1, V2,
P1, P3a) reject an unparseable date with the distinct fecha_invalida kind,
and V1's reservation distinguishes fecha_invalida from the
solo_lunes_viernes and lead_minimo policy kinds; but the reservation
endpoints of the second server.js variant, part_001 and part_003 return
the same fecha_no_disponible kind for an unparseable date as for a
weekend date, and part_002 does not validate the date at all. -/
theorem claim_C8_thm (today lead : Nat) (RATE IVA : ℚ) (orgCals : List String)
    (p : Payload) (evs : List GEvent) (c f : String) :
    (∀ cal, CAREGIVERS_V1.lookup c = some cal → parseYmd f.data = none →
      v1SlotsEndpoint today lead c f evs = .error .fechaInvalida)
    ∧ (∀ cal, v1MissingField p = none → CAREGIVERS_V1.lookup p.cuidadora = some cal →
      parseYmd p.fecha.data = none →
      (v1Reserve today lead RATE IVA p evs).result = .error .fechaInvalida)
    ∧ (∀ cal ymd, v1MissingField p = none → CAREGIVERS_V1.lookup p.cuidadora = some cal →
      parseYmd p.fecha.data = some ymd → isWeekend (dateToDay ymd) = true →
      (v1Reserve today lead RATE IVA p evs).result = .error .soloLunesViernes)
    ∧ (V1Err.fechaInvalida ≠ V1Err.soloLunesViernes
      ∧ V1Err.fechaInvalida ≠ V1Err.leadMinimo)
    ∧ (p3aMissing p = false → (v2Lookup p.cuidadora).isSome = true →
      parseDateFlexible p.fecha = none →
      (p3aReserve today lead RATE IVA orgCals p evs).result = .error .fechaNoDisponible)
    ∧ (∀ ymd, p3aMissing p = false → (v2Lookup p.cuidadora).isSome = true →
      parseDateFlexible p.fecha = some ymd → isWeekend (dateToDay ymd) = true →
      (p3aReserve today lead RATE IVA orgCals p evs).result = .error .fechaNoDisponible) := by
  refine ⟨?_, ?_, ?_, by decide, ?_, ?_⟩
  · intro cal hc hf
    simp only [v1SlotsEndpoint, hc, hf]
  · intro cal hm hc hf
    simp only [v1Reserve, hm, hc, hf]
  · intro cal ymd hm hc hf hw
    simp only [v1Reserve, hm, hc, hf, hw, if_true]
  · intro hm hls hf
    obtain ⟨cal, hcal⟩ := Option.isSome_iff_exists.mp hls
    simp only [p3aReserve, hm, Bool.false_eq_true, if_false, hcal, hf]
  · intro ymd hm hls hf hw
    obtain ⟨cal, hcal⟩ := Option.isSome_iff_exists.mp hls
    simp only [p3aReserve, hm, Bool.false_eq_true, if_false, hcal, hf, hw, if_true]

/-- C8 witness: the amended theorem at the concrete inputs — V1 rejects
"garbage" with fecha_invalida, V1 rejects Saturday 2025-10-18 with
solo_lunes_viernes, and P3a answers "garbage" with fecha_no_disponible. -/
theorem claim_C8_wit :
    v1SlotsEndpoint 0 0 "Raquel" "garbage" [] = .error .fechaInvalida
    ∧ (v1Reserve today0 5 18 (1 / 10)
        { samplePayload with fecha := "2025-10-18" } []).result = .error .soloLunesViernes
    ∧ (p3aReserve today0 5 18 (1 / 10) []
        { samplePayload with fecha := "garbage" } []).result = .error .fechaNoDisponible := by
  refine ⟨(claim_C8_thm 0 0 18 (1 / 10) [] samplePayload [] "Raquel" "garbage").1
      raquelCalV1 (by decide) (by decide), ?_, ?_⟩
  · exact (claim_C8_thm today0 5 18 (1 / 10) []
      { samplePayload with fecha := "2025-10-18" } [] "x" "x").2.2.1
      raquelCalV1 (2025, 10, 18) (by decide) (by decide) (by decide) (by decide)
  · exact (claim_C8_thm today0 5 18 (1 / 10) []
      { samplePayload with fecha := "garbage" } [] "x" "x").2.2.2.2.1
      (by decide) (by decide) (by decide)

/-! ### Claim C9 -/

/-- A request identical to samplePayload but asking for 03:00-04:00, a
range outside the catalog. -/
def pOffCatalog : Payload :=
  ⟨"Ana", "Pérez", "ana@example.com", "600111222", "Madrid", "Calle Mayor 1",
   ["compañía"], "Raquel", "2025-10-20", [⟨180, 240⟩]⟩

/-- C9 counterexample: requested ranges are NOT validated against the
catalog — a request for the out-of-catalog range 03:00-04:00 passes V1's
validation, reaches the external calendar (one list call) and creates one
event, instead of failing with a validation error before any external
call. -/
theorem claim_C9_cex :
    (⟨180, 240⟩ : Slot) ∉ SLOT_RANGES
    ∧ v1MissingField pOffCatalog = none
    ∧ (v1Reserve today0 5 18 (1 / 10) pOffCatalog []).result =
        .ok ⟨1, [⟨180, 240⟩], v1Precio 18 (1 / 10) [⟨180, 240⟩]⟩
    ∧ (v1Reserve today0 5 18 (1 / 10) pOffCatalog []).listCalls = 1
    ∧ (v1Reserve today0 5 18 (1 / 10) pOffCatalog []).inserted =
        [⟨180, 240, some ⟨180, 240⟩⟩] := by
  refine ⟨by decide, by decide, rfl, rfl, rfl⟩

/-- C9 (amended): a reservation request with a missing or empty required
field (including an empty requested-range list) is rejected with a
validation error before any external calendar call and with zero events
created, in V1 and in P3a; ranges that are present but not drawn from the
catalog are NOT validated and proceed to the conflict check and event
creation. -/
theorem claim_C9_thm (today lead : Nat) (RATE IVA : ℚ) (orgCals : List String)
    (p : Payload) (events : List GEvent) :
    (∀ k, v1MissingField p = some k →
      v1Reserve today lead RATE IVA p events = ⟨.error (.campoRequerido k), 0, []⟩)
    ∧ (p3aMissing p = true →
      p3aReserve today lead RATE IVA orgCals p events = ⟨.error .faltanCampos, 0, []⟩) := by
  constructor
  · intro k hk
    simp only [v1Reserve, hk]
  · intro hk
    simp only [p3aReserve, hk, if_true]

/-- C9 witness: the amended theorem on a request with an empty email. -/
theorem claim_C9_wit :
    v1Reserve 0 0 18 (1 / 10) { samplePayload with email := "" } [] =
      ⟨.error (.campoRequerido "email"), 0, []⟩
    ∧ p3aReserve 0 0 18 (1 / 10) [] { samplePayload with email := "" } [] =
      ⟨.error .faltanCampos, 0, []⟩ := by
  have h := claim_C9_thm 0 0 18 (1 / 10) [] { samplePayload with email := "" } []
  exact ⟨h.1 "email" (by decide), h.2 (by decide)⟩

/-! ### Claim C10 -/

/-- C10: requested ranges are never deduplicated in V1 — when the same
free range appears twice, the conflict scan (which only compares against
pre-existing events) passes for both occurrences, two identical events are
created, and subtotal = rate * 2 counts the range twice. -/
theorem claim_C10_thm (today lead : Nat) (RATE IVA : ℚ) (p : Payload)
    (events : List GEvent) (r : Slot) (cal : String) (ymd : Nat × Nat × Nat)
    (hm : v1MissingField p = none)
    (hc : CAREGIVERS_V1.lookup p.cuidadora = some cal)
    (hp : parseYmd p.fecha.data = some ymd)
    (hw : isWeekend (dateToDay ymd) = false)
    (hl : addWorkdays today lead ≤ dateToDay ymd)
    (hh : p.horas = [r, r])
    (hfree : v1Taken events r = false) :
    v1ConflictList events p.horas = []
    ∧ v1Reserve today lead RATE IVA p events =
        ⟨.ok ⟨2, [r, r], ⟨2, 2 * RATE, 2 * RATE * IVA, 2 * RATE + 2 * RATE * IVA⟩⟩, 1,
          [v1MkEvent r, v1MkEvent r]⟩ := by
  have hcl : v1ConflictList events p.horas = [] := by
    rw [hh]; unfold v1ConflictList; simp [List.filter, hfree]
  refine ⟨hcl, ?_⟩
  simp only [v1Reserve, hm, hc, hp, hw, Bool.false_eq_true, if_false]
  rw [if_neg (by omega : ¬ dateToDay ymd < addWorkdays today lead)]
  rw [hcl, hh]
  simp [v1Precio]

/-- C10 witness: the duplicate request [09:00-10:00, 09:00-10:00] on an
empty calendar creates two identical events and prices two hours. -/
theorem claim_C10_wit :
    v1Reserve today0 5 18 (1 / 10)
      { samplePayload with horas := [⟨540, 600⟩, ⟨540, 600⟩] } [] =
      ⟨.ok ⟨2, [⟨540, 600⟩, ⟨540, 600⟩],
          ⟨2, 2 * 18, 2 * 18 * (1 / 10), 2 * 18 + 2 * 18 * (1 / 10)⟩⟩, 1,
        [v1MkEvent ⟨540, 600⟩, v1MkEvent ⟨540, 600⟩]⟩ :=
  (claim_C10_thm today0 5 18 (1 / 10)
    { samplePayload with horas := [⟨540, 600⟩, ⟨540, 600⟩] } [] ⟨540, 600⟩ raquelCalV1
    (2025, 10, 20)
    (by decide) (by decide) (by decide) (by decide) (by decide) rfl (by decide)).2

end Cuidame
